import Mathlib

/-!
Shallow embedding of `cryodrgn/commands_utils/fsc.py` (Fourier shell
correlation between volumes, cryoSPARC-style multi-mask pipeline with
phase-randomization correction).

Modelling conventions, stated once:

* A real-space volume of side `D` is a function `Vol = ℕ → ℕ → ℕ → ℝ`
  (meaningful on indices `< D`); its spectral transform is a
  `CVol = ℕ → ℕ → ℕ → ℂ`.  The side `D` is threaded explicitly (in the
  source it is `vol.shape[0]`).
* `fft.fftn_center` lives in `cryodrgn/fft.py`, which is not part of the
  staged sources; the spec lists the spectral transform as an external
  collaborator, so every theorem is stated for an arbitrary transform
  `F : Vol → CVol`.  Likewise the mask generators
  (`spherical_window_mask`, `cosine_dilation_mask`) are collaborator
  parameters, and volume/mask file loading is modelled as data already
  in memory.
* Floats are idealized as exact arithmetic: real-space data and masks are
  real numbers, spectral data complex numbers, pixel-resolution values
  (always of the form i / D) rationals.  `np.vdot` of a nonzero list with
  itself is a positive real, so the only float special value the source
  can produce in `calculate_fsc` is NaN, from 0 / 0 on a zero-power
  shell.  Lean total division gives that shell the junk value 0, which,
  like NaN, fails every `>= cutoff` test used downstream; in
  `correct_fsc`, where `np.isnan` is tested explicitly, the NaN case is
  modelled exactly by its trigger, a zero denominator.
* `vol1 *= initial_mask` mutates the array owned by the CALLER.  Calls
  that do this return, besides their result, the post-call contents of
  the two caller buffers (fields `v1`, `v2` below), and the orchestrator
  threads those buffers from call to call exactly as the aliased numpy /
  torch arrays flow in the source.
* `random.shuffle` consumes process RNG state; the two shuffles are
  modelled as two arbitrary reindexing functions `σ1 σ2 : ℕ → ℕ` (the
  spec itself demands an injectable randomness source here).
-/

abbrev Vol : Type := ℕ → ℕ → ℕ → ℝ

abbrev CVol : Type := ℕ → ℕ → ℕ → ℂ

abbrev Idx : Type := ℕ × ℕ × ℕ

/-- All voxel index triples of a cubic array of side `D`, in row-major
(C) order — the order in which `np.where` enumerates a boolean mask. -/
def allIdx (D : ℕ) : List Idx :=
  (List.range D).flatMap fun a =>
    (List.range D).flatMap fun b =>
      (List.range D).map fun c => (a, b, c)

/-- Squared Euclidean distance of voxel `p` from the center index
(D/2, D/2, D/2).  In `get_fftn_dists` the coordinate grid is
`np.arange(-D // 2, D // 2)`, whose k-th entry is `k - D/2` for even `D`,
and `dists` is the square root of the sum of squared coordinates.  The
source compares `dists` only against integers, and
`sqrt dsq < i ↔ dsq < i^2`, so the model keeps the exact square. -/
def distSq (D : ℕ) (p : Idx) : ℤ :=
  ((p.1 : ℤ) - (D / 2 : ℕ)) ^ 2 + ((p.2.1 : ℤ) - (D / 2 : ℕ)) ^ 2 +
    ((p.2.2 : ℤ) - (D / 2 : ℕ)) ^ 2

/-- The mask `dists < i` of `calculate_fsc`, on the exact squared
distances: `sqrt dsq < i ↔ dsq < i^2` for natural `i`. -/
def inBall (D : ℕ) (i : ℕ) (p : Idx) : Bool :=
  decide (distSq D p < (i : ℤ) ^ 2)

/-- Ring shell `i`: voxels with `dists < i` and not `dists < i - 1`
(`mask & np.logical_not(prev_mask)` in the source; at loop step `i` the
previous mask is `dists < i - 1`), listed in `np.where` order. -/
def shellIdx (D i : ℕ) : List Idx :=
  (allIdx D).filter fun p => inBall D i p && !inBall D (i - 1) p

/-- Fancy-indexing `w[shell]`: the values of `w` at a list of voxels. -/
def extract (w : CVol) (l : List Idx) : List ℂ :=
  l.map fun p => w p.1 p.2.1 p.2.2

/-- `np.vdot(v, w)`: the sum of `conj vᵢ * wᵢ`. -/
noncomputable def vdot (v w : List ℂ) : ℂ :=
  (List.zipWith (fun a b => (starRingEnd ℂ) a * b) v w).sum

/-- The stored per-shell FSC value
`(np.vdot(v1, v2) / (np.vdot(v1, v1) * np.vdot(v2, v2)) ** 0.5).real`:
both self-products are nonnegative reals, so the complex square root is
the real `Real.sqrt` and the real part of the quotient is the quotient
of real parts.  A zero-power shell (denominator 0) is NaN in the source
and the junk value 0 here (see the header note). -/
noncomputable def shellCorr (v1 v2 : List ℂ) : ℝ :=
  (vdot v1 v2).re / Real.sqrt ((vdot v1 v1).re * (vdot v2 v2).re)

/-- The list `fsc` built by the loop of `calculate_fsc`: entry 0 is the
constant 1.0, entries `i = 1 … D/2 - 1` the ring-shell correlations of
the two spectral volumes. -/
noncomputable def fscVals (D : ℕ) (w1 w2 : CVol) : List ℝ :=
  1 :: ((List.range' 1 (D / 2 - 1)).map fun i =>
    shellCorr (extract w1 (shellIdx D i)) (extract w2 (shellIdx D i)))

/-- The pixel-resolution axis `np.arange(D // 2) / D`. -/
def pixres (D : ℕ) : List ℚ :=
  (List.range (D / 2)).map fun (i : ℕ) => (i : ℚ) / (D : ℚ)

/-- The two-column data frame `(pixres, fsc)` as a list of pairs. -/
noncomputable def mkCurve (D : ℕ) (vals : List ℝ) : List (ℚ × ℝ) :=
  List.zip (pixres D) vals

/-- Pointwise mask multiplication `vol * mask` (numpy broadcasting with a
full-size mask). -/
noncomputable def maskVol (v m : Vol) : Vol :=
  fun a b c => v a b c * m a b c

/-- The optional pre-masking `if initial_mask is not None: vol *= mask`. -/
noncomputable def maskOpt (v : Vol) (m : Option Vol) : Vol :=
  match m with
  | some mask => maskVol v mask
  | none => v

/-- Result of `calculate_fsc`: the FSC curve, plus the post-call contents
of the two caller-owned volume buffers (`vol1 *= initial_mask` mutates
them in place; the later rebinding `vol1 = fft.fftn_center(vol1)` is a
local rebinding and does not touch the caller). -/
structure FscOut where
  curve : List (ℚ × ℝ)
  v1 : Vol
  v2 : Vol

/-- Model of `calculate_fsc(vol1, vol2, initial_mask)` for volumes of
side `D`, with spectral transform `F`.  (The `out_file` parameter only
writes the curve to disk and is omitted.) -/
noncomputable def calculate_fsc (F : Vol → CVol) (D : ℕ) (vol1 vol2 : Vol)
    (initial_mask : Option Vol) : FscOut :=
  let v1 := maskOpt vol1 initial_mask
  let v2 := maskOpt vol2 initial_mask
  { curve := mkCurve D (fscVals D (F v1) (F v2)), v1 := v1, v2 := v2 }

/-- Maximum of a list of rationals, the way `pandas.Series.max` reduces a
nonempty column (`none` on an empty one). -/
def listMaxQ : List ℚ → Option ℚ
  | [] => none
  | x :: xs =>
    match listMaxQ xs with
    | none => some x
    | some m => some (max x m)

open Classical

/-- One arm of `get_fsc_thresholds`: if some entry has `pixres > 0` and
`fsc >= cutoff` (`((fsc_vals.pixres > 0) & (fsc_vals.fsc >= cutoff)).any()`),
return `fsc_vals.pixres[fsc_vals.fsc >= cutoff].max()` — note the source
takes the max over ALL entries meeting the cutoff, the DC row included —
else `None`. -/
noncomputable def fscThreshold (curve : List (ℚ × ℝ)) (cutoff : ℝ) : Option ℚ :=
  if ∃ e ∈ curve, 0 < e.1 ∧ cutoff ≤ e.2 then
    listMaxQ ((curve.filter fun e => decide (cutoff ≤ e.2)).map Prod.fst)
  else none

/-- Model of `get_fsc_thresholds(fsc_vals, apix)`: the pair of pixel
resolutions at the 0.5 and 0.143 cutoffs.  `apix` only scales the values
printed to the log and `verbose` only toggles that logging; neither
affects the returned pair. -/
noncomputable def get_fsc_thresholds (curve : List (ℚ × ℝ)) (_apix : ℚ) :
    Option ℚ × Option ℚ :=
  (fscThreshold curve (0.5 : ℝ), fscThreshold curve (0.143 : ℝ))

/-- Written from the spec sentence for the threshold extractor, for the
refinement theorem of claim C7: the maximal pixel-resolution value among
the entries with pixel-resolution > 0 whose correlation is at least the
cutoff, undefined when there is no such entry. -/
noncomputable def specThreshold (curve : List (ℚ × ℝ)) (cutoff : ℝ) : Option ℚ :=
  listMaxQ ((curve.filter fun e => decide (0 < e.1) && decide (cutoff ≤ e.2)).map
    Prod.fst)

/-- Python `int()` applied to a (rational-valued) float: truncation toward
zero. -/
def pyInt (q : ℚ) : ℤ :=
  if q < 0 then -Int.floor (-q) else Int.floor q

/-- The mask `dists > phase_D` on exact squared distances: for `t < 0`
every (nonnegative) distance exceeds `t`; otherwise
`sqrt dsq > t ↔ dsq > t^2`. -/
def distGt (dsq t : ℤ) : Bool :=
  if t < 0 then true else decide (t ^ 2 < dsq)

/-- The voxels selected by `phase_mask = dists > phase_D`, in `np.where`
order. -/
def phasePositions (D : ℕ) (t : ℤ) : List Idx :=
  (allIdx D).filter fun p => distGt (distSq D p) t

/-- The phase-randomization scramble
`vol[phase_mask] = vol[phase_mask][phase_inds]`: the values at the
high-frequency voxels are replaced by a reindexing (in the source, a
random permutation) of themselves; all other voxels keep their value. -/
noncomputable def scramble (D : ℕ) (t : ℤ) (σ : ℕ → ℕ) (w : CVol) : CVol :=
  let pos := phasePositions D t
  let vals := extract w pos
  fun a b c =>
    if (a, b, c) ∈ pos then vals.getD (σ (List.indexOf (a, b, c) pos)) 0
    else w a b c

/-- `np.clip(x, 0, 1.0)`. -/
noncomputable def clipVal (x : ℝ) : ℝ :=
  min (max x 0) 1

/-- The body of the shell loop of `correct_fsc` for a shell with
`i > phase_D`, rewriting the original value `x = fsc[i]`:
`p` is the correlation of the scrambled volumes on shell `i`;
`p == 1.0` gives 0, a NaN `p` (zero denominator, see the header note)
leaves `x`, otherwise `np.clip((x - p) / (1 - p), 0, 1.0)`. -/
noncomputable def correctShellVal (w1 w2 : CVol) (D i : ℕ) (x : ℝ) : ℝ :=
  let v1 := extract w1 (shellIdx D i)
  let v2 := extract w2 (shellIdx D i)
  let den2 := (vdot v1 v1).re * (vdot v2 v2).re
  if den2 = 0 then x
  else
    let p := (vdot v1 v2).re / Real.sqrt den2
    if p = 1 then 0 else clipVal ((x - p) / (1 - p))

/-- The shell loop of `correct_fsc`: starting from the input values, each
shell `i = 1 … D/2 - 1` with `i > phase_D` has its entry rewritten in
place (each iteration reads and writes only index `i`). -/
noncomputable def correctLoop (w1 w2 : CVol) (D : ℕ) (phaseD : ℤ)
    (fsc0 : List ℝ) : List ℝ :=
  (List.range' 1 (D / 2 - 1)).foldl
    (fun (acc : List ℝ) (i : ℕ) =>
      if phaseD < (i : ℤ) then
        acc.set i (correctShellVal w1 w2 D i (acc.getD i 0))
      else acc)
    fsc0

/-- Model of
`correct_fsc(fsc_vals, vol1, vol2, randomization_threshold, initial_mask)`
with transform `F` and shuffle reindexings `σ1 σ2`.  Mirrors the source
order: the caller buffers are mask-multiplied first, then the length of
the supplied curve is checked against `D // 2` (a `ValueError` on
mismatch), then `phase_D = int(randomization_threshold * D)` is cut, both
spectra are scrambled past it and the shell loop rescales the curve.
Returns the new curve and the post-call caller buffers. -/
noncomputable def correct_fsc (F : Vol → CVol) (D : ℕ)
    (fsc_vals : List (ℚ × ℝ)) (vol1 vol2 : Vol)
    (randomization_threshold : ℚ) (initial_mask : Option Vol)
    (σ1 σ2 : ℕ → ℕ) : Except String (List (ℚ × ℝ) × Vol × Vol) :=
  let v1 := maskOpt vol1 initial_mask
  let v2 := maskOpt vol2 initial_mask
  if fsc_vals.length ≠ D / 2 then
    Except.error "ValueError: given FSC values do not have D // 2 entries"
  else
    let phaseD := pyInt (randomization_threshold * (D : ℚ))
    let w1 := scramble D phaseD σ1 (F v1)
    let w2 := scramble D phaseD σ2 (F v2)
    Except.ok
      (mkCurve D (correctLoop w1 w2 D phaseD (fsc_vals.map Prod.snd)), v1, v2)

/-- Modelled from the spec: the mask generators
(`spherical_window_mask`, `cosine_dilation_mask` from `cryodrgn.masking`,
not among the staged sources) are external collaborators producing mask
arrays from a volume size, respectively from a reference volume with
dilation and cosine-edge parameters; they are abstracted as provider
functions. -/
structure Providers where
  sphereMask : ℕ → Vol
  cosMask : Vol → ℕ → ℕ → ℚ → Vol

/-- The `tight_mask` argument of `calculate_cryosparc_fscs`: either a
(dilation, edge-width) pair or an explicit mask array.  The source checks
this with `isinstance` and raises a `TypeError` on any other type; the
tagged variant makes that branch unrepresentable (as the design notes of
the spec themselves suggest). -/
inductive TightMaskArg
  | params (dilation edge_dist : ℕ)
  | arr (m : Vol)

/-- The tight mask the orchestrator ends up using. -/
noncomputable def csTightMask (P : Providers) (full_vol : Vol)
    (tight : TightMaskArg) (Apix : ℚ) : Vol :=
  match tight with
  | TightMaskArg.params d e => P.cosMask full_vol d e Apix
  | TightMaskArg.arr m => m

/-- The four masked FSC computations of `calculate_cryosparc_fscs`, in
dict order No Mask, Spherical, Loose, Tight, threading the caller-owned
half-map buffers through the in-place mask multiplications of
`calculate_fsc` (see the header note: `vol1 *= initial_mask` mutates the
arrays the orchestrator keeps passing in). -/
structure CSRuns where
  r0 : FscOut
  r1 : FscOut
  r2 : FscOut
  r3 : FscOut

/-- The four labelled `calculate_fsc` calls of the orchestrator. -/
noncomputable def csRun (F : Vol → CVol) (P : Providers) (D : ℕ)
    (full_vol half_vol1 half_vol2 : Vol) (sphere_mask : Option Vol)
    (loose_mask : ℕ × ℕ) (tight : TightMaskArg) (Apix : ℚ) : CSRuns :=
  let sphere := match sphere_mask with
    | some m => m
    | none => P.sphereMask D
  let loose := P.cosMask full_vol loose_mask.1 loose_mask.2 Apix
  let tightM := csTightMask P full_vol tight Apix
  let r0 := calculate_fsc F D half_vol1 half_vol2 none
  let r1 := calculate_fsc F D r0.v1 r0.v2 (some sphere)
  let r2 := calculate_fsc F D r1.v1 r1.v2 (some loose)
  let r3 := calculate_fsc F D r2.v1 r2.v2 (some tightM)
  { r0 := r0, r1 := r1, r2 := r2, r3 := r3 }

/-- The five-curve table of the orchestrator with the per-label 0.143
thresholds. -/
structure CSOut where
  noMask : List (ℚ × ℝ)
  spherical : List (ℚ × ℝ)
  loose : List (ℚ × ℝ)
  tight : List (ℚ × ℝ)
  corrected : List (ℚ × ℝ)
  tNoMask : Option ℚ
  tSpherical : Option ℚ
  tLoose : Option ℚ
  tTight : Option ℚ
  tCorrected : Option ℚ

/-- The plot-labelling step
`fsc_angs = ((1 / fsc_val) * Apix for each label)` runs whenever a plot
destination is given and computes `1 / fsc_val` for every one of the five
thresholds; a `None` threshold makes Python raise
`TypeError: unsupported operand type(s)`.  True iff that step succeeds. -/
def plotLabelsOk (ts : List (Option ℚ)) : Bool :=
  ts.all Option.isSome

/-- Model of
`calculate_cryosparc_fscs(full_vol, half_vol1, half_vol2, sphere_mask,
loose_mask, tight_mask, Apix, out_file, plot_file)`.  Computes the four
masked curves (threading the mutated half-map buffers), their 0.143
thresholds, then: if the Tight threshold is defined, the Corrected curve
is `correct_fsc` on the Tight curve with
`randomization_threshold = 0.75 * tight_threshold` and the Tight mask
(applied to the by-now thrice-masked buffers), else Corrected is the
Tight curve and its threshold is the Tight one.  If a plot destination
is given the labelling step divides by every threshold (TypeError when
one is undefined).  `out_file` only persists the table and is omitted;
the final `assert` that all pixres axes agree always holds in this model
because every curve is built on `pixres D`. -/
noncomputable def calculate_cryosparc_fscs (F : Vol → CVol) (P : Providers)
    (D : ℕ) (full_vol half_vol1 half_vol2 : Vol) (sphere_mask : Option Vol)
    (loose_mask : ℕ × ℕ) (tight : TightMaskArg) (Apix : ℚ)
    (plot_file : Option Unit) (σ1 σ2 : ℕ → ℕ) : Except String CSOut :=
  let s := csRun F P D full_vol half_vol1 half_vol2 sphere_mask loose_mask
    tight Apix
  let tN := (get_fsc_thresholds s.r0.curve Apix).2
  let tS := (get_fsc_thresholds s.r1.curve Apix).2
  let tL := (get_fsc_thresholds s.r2.curve Apix).2
  let tT := (get_fsc_thresholds s.r3.curve Apix).2
  match tT with
  | some t =>
    match correct_fsc F D s.r3.curve s.r3.v1 s.r3.v2 ((3 : ℚ) / 4 * t)
        (some (csTightMask P full_vol tight Apix)) σ1 σ2 with
    | Except.error e => Except.error e
    | Except.ok (cc, _, _) =>
      let tC := (get_fsc_thresholds cc Apix).2
      if plot_file.isSome && !plotLabelsOk [tN, tS, tL, some t, tC] then
        Except.error "TypeError: unsupported operand types for / with None"
      else
        Except.ok
          { noMask := s.r0.curve, spherical := s.r1.curve,
            loose := s.r2.curve, tight := s.r3.curve, corrected := cc,
            tNoMask := tN, tSpherical := tS, tLoose := tL,
            tTight := some t, tCorrected := tC }
  | none =>
    if plot_file.isSome && !plotLabelsOk [tN, tS, tL, none, none] then
      Except.error "TypeError: unsupported operand types for / with None"
    else
      Except.ok
        { noMask := s.r0.curve, spherical := s.r1.curve,
          loose := s.r2.curve, tight := s.r3.curve, corrected := s.r3.curve,
          tNoMask := tN, tSpherical := tS, tLoose := tL,
          tTight := none, tCorrected := none }

/-- A loaded volume file: its data (an `ImageSource` in the source) and
the optional pixel-size metadata `vol.apix` read from its header. -/
structure VolFile where
  data : Vol
  apix : Option ℚ

instance : Inhabited VolFile :=
  ⟨⟨fun _ _ _ => 0, none⟩⟩

/-- The parsed command-line arguments of `cryodrgn_utils fsc` that can
influence control flow.  `plot` keeps only whether plotting was
requested (the path resolution of lines 337-346 is pure string work);
`outtxt` only chooses between writing the table to disk and printing it,
so it is carried but never branches. -/
structure Args where
  volumes : List VolFile
  mask : Option Vol
  corrected : Option ℚ
  Apix : Option ℚ
  plot : Option Unit
  outtxt : Option String

/-- The pixel-size resolution of `main` (lines 325-335): `if args.Apix:`
is Python float truthiness, so an explicit 0 counts as absent; otherwise
the set of distinct pixel sizes carried by the volumes decides — empty
set: default 1.0, singleton: that value, anything else: a fatal
ValueError. -/
def resolveApix (apixArg : Option ℚ) (vols : List VolFile) : Except String ℚ :=
  if (match apixArg with
      | some a => !decide (a = 0)
      | none => false : Bool) then
    Except.ok (apixArg.getD 1)
  else
    let s := (vols.filterMap VolFile.apix).dedup
    if s.length = 0 then Except.ok 1
    else if s.length = 1 then Except.ok (s.getD 0 1)
    else Except.error "ValueError: these volumes have different A per px values"

/-- Python call binding for a positional-plus-keyword call: the first
`npos` parameters are bound positionally; a keyword naming one of them
makes the call itself raise
`TypeError: got multiple values for argument ...` before the callee
body runs.  (Arity overflow would also be a TypeError; not needed
here.) -/
def pyBindOk (params : List String) (npos : ℕ) (kwargs : List String) : Bool :=
  decide (npos ≤ params.length) &&
    kwargs.all fun k => !(params.take npos).contains k

/-- The call `main` makes in 2-volume mode (lines 357-363):
`calculate_fsc(vol1, vol2, mask, args.corrected, out_file=args.outtxt)`
against the signature
`calculate_fsc(vol1, vol2, initial_mask=None, out_file=None)` — four
positional arguments, so `args.corrected` lands in `out_file`, and the
keyword `out_file` names an already-bound parameter. -/
def calculate_fsc_call_ok : Bool :=
  pyBindOk ["vol1", "vol2", "initial_mask", "out_file"] 4 ["out_file"]

/-- Observable computation steps of a `main` run, used to state that an
error fires before any mask or FSC computation. -/
inductive Ev
  | maskBuilt
  | fscComputed
deriving DecidableEq

/-- What a successful `main` run hands on: the pixel size it settled on
and either the single two-volume curve or the orchestrator table. -/
structure MainOut where
  apixUsed : ℚ
  twoVol : Option (List (ℚ × ℝ))
  threeVol : Option CSOut

/-- Model of `main(args)`: volume-count check, pixel-size resolution,
then the two branches.  In 2-volume mode the source calls
`calculate_fsc` with four positional arguments plus an `out_file`
keyword (see `calculate_fsc_call_ok`); Python raises a TypeError at the
call site, so the legitimate computation sits in a branch that binding
never reaches.  (The `--corrected` unit conversion of lines 353-355 is
pure arithmetic on a value that would be bound to `out_file` anyway, so
it is not modelled.)  In 3-volume mode an explicit `--corrected` is a
fatal ValueError raised before the orchestrator runs; otherwise the
parsed `--mask` array (or the default (6, 6) parameters) becomes the
tight mask and the orchestrator is invoked.  The event list records
which computations a run performed. -/
noncomputable def main (F : Vol → CVol) (P : Providers) (D : ℕ) (args : Args)
    (σ1 σ2 : ℕ → ℕ) : List Ev × Except String MainOut :=
  if args.volumes.length = 2 ∨ args.volumes.length = 3 then
    match resolveApix args.Apix args.volumes with
    | Except.error e => ([], Except.error e)
    | Except.ok apix =>
      if args.volumes.length = 2 then
        if calculate_fsc_call_ok then
          ([Ev.fscComputed],
            Except.ok
              { apixUsed := apix,
                twoVol := some (calculate_fsc F D (args.volumes.getD 0 default).data
                  (args.volumes.getD 1 default).data args.mask).curve,
                threeVol := none })
        else
          ([], Except.error
            "TypeError: calculate_fsc got multiple values for argument out_file")
      else
        match args.corrected with
        | some _ =>
          ([], Except.error
            "ValueError: cannot provide your own phase randomization threshold")
        | none =>
          let tight : TightMaskArg := match args.mask with
            | some m => TightMaskArg.arr m
            | none => TightMaskArg.params 6 6
          match calculate_cryosparc_fscs F P D (args.volumes.getD 0 default).data
              (args.volumes.getD 1 default).data (args.volumes.getD 2 default).data
              none (25, 15) tight apix args.plot σ1 σ2 with
          | Except.ok out =>
            ([Ev.maskBuilt, Ev.fscComputed],
              Except.ok { apixUsed := apix, twoVol := none, threeVol := some out })
          | Except.error e =>
            ([Ev.maskBuilt, Ev.fscComputed], Except.error e)
  else ([], Except.error "ValueError: must provide two or three volume files")

/-- Concrete objects used by the closed theorems below. -/
noncomputable def zeroVol : Vol := fun _ _ _ => 0

noncomputable def oneVol : Vol := fun _ _ _ => 1

noncomputable def halfVol : Vol := fun _ _ _ => 1 / 2

noncomputable def zeroF : Vol → CVol := fun _ _ _ _ => 0

noncomputable def oneProviders : Providers :=
  { sphereMask := fun _ => oneVol, cosMask := fun _ _ _ _ => oneVol }

/-! Helper lemmas about the curve representation. -/

lemma fscVals_length (D : ℕ) (w1 w2 : CVol) :
    (fscVals D w1 w2).length = 1 + (D / 2 - 1) := by
  simp [fscVals, Nat.add_comm]

lemma fscVals_length_of_le (D : ℕ) (w1 w2 : CVol) (hD : 2 ≤ D) :
    (fscVals D w1 w2).length = D / 2 := by
  rw [fscVals_length]
  omega

lemma pixres_length (D : ℕ) : (pixres D).length = D / 2 := by
  rw [pixres, List.length_map, List.length_range]

lemma pixres_getElem? (D i : ℕ) (hi : i < D / 2) :
    (pixres D)[i]? = some ((i : ℚ) / (D : ℚ)) := by
  rw [pixres, List.getElem?_map, List.getElem?_range hi, Option.map_some']

lemma mkCurve_length (D : ℕ) (vals : List ℝ) (hv : vals.length = D / 2) :
    (mkCurve D vals).length = D / 2 := by
  simp [mkCurve, pixres_length, hv]

lemma mkCurve_getElem? (D : ℕ) (vals : List ℝ) (hv : vals.length = D / 2)
    (i : ℕ) (hi : i < D / 2) :
    (mkCurve D vals)[i]? = some ((i : ℚ) / (D : ℚ), vals.getD i 0) := by
  have hvi : i < vals.length := by omega
  have h2 : vals[i]? = some vals[i] := List.getElem?_eq_getElem hvi
  have h3 : vals.getD i 0 = vals[i] := by
    rw [List.getD_eq_getElem?_getD, h2]
    rfl
  rw [mkCurve, h3]
  exact List.getElem?_zip_eq_some.mpr ⟨pixres_getElem? D i hi, h2⟩

lemma fscVals_getElem?_zero (D : ℕ) (w1 w2 : CVol) :
    (fscVals D w1 w2)[0]? = some 1 := by
  rw [fscVals, List.getElem?_cons_zero]

lemma fscVals_getElem?_pos (D : ℕ) (w1 w2 : CVol) (i : ℕ) (h1 : 1 ≤ i)
    (h2 : i < D / 2) :
    (fscVals D w1 w2)[i]? =
      some (shellCorr (extract w1 (shellIdx D i)) (extract w2 (shellIdx D i))) := by
  obtain ⟨j, rfl⟩ : ∃ j, i = j + 1 := ⟨i - 1, by omega⟩
  have hj : j < D / 2 - 1 := by omega
  rw [fscVals, List.getElem?_cons_succ, List.getElem?_map,
    List.getElem?_range' 1 1 hj]
  simp [Nat.add_comm 1 j]

lemma fscVals_getD_pos (D : ℕ) (w1 w2 : CVol) (i : ℕ) (h1 : 1 ≤ i)
    (h2 : i < D / 2) :
    (fscVals D w1 w2).getD i 0 =
      shellCorr (extract w1 (shellIdx D i)) (extract w2 (shellIdx D i)) := by
  rw [List.getD_eq_getElem?_getD, fscVals_getElem?_pos D w1 w2 i h1 h2]
  rfl

lemma calculate_fsc_curve_length (F : Vol → CVol) (D : ℕ) (v1 v2 : Vol)
    (m : Option Vol) (hD : 2 ≤ D) :
    (calculate_fsc F D v1 v2 m).curve.length = D / 2 := by
  simp [calculate_fsc]
  exact mkCurve_length D _ (fscVals_length_of_le D _ _ hD)

lemma calculate_fsc_curve_getElem? (F : Vol → CVol) (D : ℕ) (v1 v2 : Vol)
    (m : Option Vol) (hD : 2 ≤ D) (i : ℕ) (hi : i < D / 2) :
    (calculate_fsc F D v1 v2 m).curve[i]? =
      some ((i : ℚ) / (D : ℚ),
        (fscVals D (F (maskOpt v1 m)) (F (maskOpt v2 m))).getD i 0) := by
  simp only [calculate_fsc]
  exact mkCurve_getElem? D _ (fscVals_length_of_le D _ _ hD) i hi

lemma curve_map_fst (F : Vol → CVol) (D : ℕ) (v1 v2 : Vol) (m : Option Vol)
    (hD : 2 ≤ D) :
    (calculate_fsc F D v1 v2 m).curve.map Prod.fst = pixres D := by
  simp only [calculate_fsc, mkCurve]
  exact List.map_fst_zip _ _ (by
    rw [pixres_length, fscVals_length_of_le D _ _ hD])

/-- C4: for every pair of volumes of even side D (and any transform and
optional mask), the curve of the FSC Calculator has exactly D/2 entries,
its pixel-resolution axis is i/D for i = 0 … D/2 - 1 and is strictly
increasing, and entry 0 is the pair (0, 1) — the constant 1.0 put there
by convention: the statement holds for every transform and every pair of
volumes, so the DC entry is independent of the data. -/
theorem calculate_fsc_curve_shape (F : Vol → CVol) (D : ℕ) (v1 v2 : Vol)
    (m : Option Vol) (hE : Even D) (hD : 0 < D) :
    (calculate_fsc F D v1 v2 m).curve.length = D / 2 ∧
    (∀ i, i < D / 2 →
      ((calculate_fsc F D v1 v2 m).curve[i]?).map Prod.fst =
        some ((i : ℚ) / (D : ℚ))) ∧
    List.Pairwise (fun a b => a < b)
      ((calculate_fsc F D v1 v2 m).curve.map Prod.fst) ∧
    (calculate_fsc F D v1 v2 m).curve[0]? = some (0, 1) := by
  have hD2 : 2 ≤ D := by
    rcases hE with ⟨k, hk⟩
    omega
  refine ⟨calculate_fsc_curve_length F D v1 v2 m hD2, ?_, ?_, ?_⟩
  · intro i hi
    rw [calculate_fsc_curve_getElem? F D v1 v2 m hD2 i hi, Option.map_some']
  · rw [curve_map_fst F D v1 v2 m hD2, pixres, List.pairwise_map]
    have h0 : (0 : ℚ) < (D : ℚ) := by
      exact_mod_cast hD
    exact (List.pairwise_lt_range (D / 2)).imp fun h =>
      div_lt_div_of_pos_right (by exact_mod_cast h) h0
  · have h0 : 0 < D / 2 := by omega
    rw [calculate_fsc_curve_getElem? F D v1 v2 m hD2 0 h0]
    have : (fscVals D (F (maskOpt v1 m)) (F (maskOpt v2 m))).getD 0 0 = 1 := by
      rw [List.getD_eq_getElem?_getD, fscVals_getElem?_zero]
      rfl
    rw [this]
    norm_num

/-- Witness for C4 at the concrete input D = 4, zero volumes, zero
transform, no mask. -/
theorem calculate_fsc_curve_shape_witness :
    (calculate_fsc zeroF 4 zeroVol zeroVol none).curve.length = 4 / 2 ∧
    (∀ i : ℕ, i < 4 / 2 →
      ((calculate_fsc zeroF 4 zeroVol zeroVol none).curve[i]?).map Prod.fst =
        some ((i : ℚ) / ((4 : ℕ) : ℚ))) ∧
    List.Pairwise (fun a b => a < b)
      ((calculate_fsc zeroF 4 zeroVol zeroVol none).curve.map Prod.fst) ∧
    (calculate_fsc zeroF 4 zeroVol zeroVol none).curve[0]? = some (0, 1) :=
  calculate_fsc_curve_shape zeroF 4 zeroVol zeroVol none (by decide) (by decide)

/-- C3: for volumes of even side D and every shell index i in
1 … D/2 - 1, entry i of the FSC Calculator curve is the pair of the
pixel resolution i/D and the normalized complex correlation
re(vdot(v1, v2)) / sqrt(vdot(v1, v1) * vdot(v2, v2)) of the spectral
coefficients of the two (optionally pre-masked) volumes restricted to
the ring of voxels at center distance d with d < i and not d < i - 1
(that ring is `shellIdx D i` by definition). -/
theorem calculate_fsc_shell_value (F : Vol → CVol) (D : ℕ) (vol1 vol2 : Vol)
    (m : Option Vol) (i : ℕ) (hE : Even D) (h1 : 1 ≤ i) (h2 : i < D / 2) :
    (calculate_fsc F D vol1 vol2 m).curve[i]? =
      some ((i : ℚ) / (D : ℚ),
        shellCorr (extract (F (maskOpt vol1 m)) (shellIdx D i))
          (extract (F (maskOpt vol2 m)) (shellIdx D i))) := by
  have hD2 : 2 ≤ D := by
    rcases hE with ⟨k, hk⟩
    omega
  rw [calculate_fsc_curve_getElem? F D vol1 vol2 m hD2 i h2,
    fscVals_getD_pos D _ _ i h1 h2]

/-- Witness for C3 at D = 4, i = 1, zero volumes and transform. -/
theorem calculate_fsc_shell_value_witness :
    (calculate_fsc zeroF 4 zeroVol zeroVol none).curve[(1 : ℕ)]? =
      some (((1 : ℕ) : ℚ) / ((4 : ℕ) : ℚ),
        shellCorr (extract (zeroF (maskOpt zeroVol none)) (shellIdx 4 1))
          (extract (zeroF (maskOpt zeroVol none)) (shellIdx 4 1))) :=
  calculate_fsc_shell_value zeroF 4 zeroVol zeroVol none 1 (by decide)
    (by decide) (by decide)

/-! Helper lemmas for the list maximum. -/

lemma listMaxQ_eq_none_iff (l : List ℚ) : listMaxQ l = none ↔ l = [] := by
  cases l with
  | nil => simp [listMaxQ]
  | cons x xs =>
    simp only [listMaxQ]
    cases h : listMaxQ xs <;> simp

lemma listMaxQ_mem (l : List ℚ) (m : ℚ) (h : listMaxQ l = some m) : m ∈ l := by
  induction l generalizing m with
  | nil => simp [listMaxQ] at h
  | cons x xs ih =>
    simp only [listMaxQ] at h
    cases hxs : listMaxQ xs with
    | none =>
      rw [hxs] at h
      simp at h
      simp [h]
    | some m' =>
      rw [hxs] at h
      simp at h
      rcases max_choice x m' with hc | hc <;> rw [← h, hc]
      · exact List.mem_cons_self x xs
      · exact List.mem_cons_of_mem x (ih m' hxs)

lemma listMaxQ_is_ub (l : List ℚ) (m : ℚ) (h : listMaxQ l = some m) :
    ∀ x ∈ l, x ≤ m := by
  induction l generalizing m with
  | nil => simp
  | cons x xs ih =>
    simp only [listMaxQ] at h
    cases hxs : listMaxQ xs with
    | none =>
      rw [hxs] at h
      simp at h
      rw [listMaxQ_eq_none_iff] at hxs
      subst hxs
      simp [h]
    | some m' =>
      rw [hxs] at h
      simp at h
      intro y hy
      rcases List.mem_cons.mp hy with rfl | hy'
      · rw [← h]
        exact le_max_left _ _
      · rw [← h]
        exact le_trans (ih m' hxs y hy') (le_max_right _ _)

lemma listMaxQ_eq_some_of (l : List ℚ) (m : ℚ) (hm : m ∈ l)
    (hub : ∀ x ∈ l, x ≤ m) : listMaxQ l = some m := by
  have hne : l ≠ [] := by
    intro h
    subst h
    exact absurd hm (List.not_mem_nil m)
  cases h : listMaxQ l with
  | none => exact absurd ((listMaxQ_eq_none_iff l).mp h) hne
  | some m' =>
    have h1 : m' ≤ m := hub m' (listMaxQ_mem l m' h)
    have h2 : m ≤ m' := listMaxQ_is_ub l m' h m hm
    rw [le_antisymm h1 h2]

lemma fscThreshold_eq_spec (curve : List (ℚ × ℝ)) (cutoff : ℝ) :
    fscThreshold curve cutoff = specThreshold curve cutoff := by
  by_cases hg : ∃ e ∈ curve, 0 < e.1 ∧ cutoff ≤ e.2
  · rw [fscThreshold, if_pos hg, specThreshold]
    obtain ⟨e0, he0, hpos0, hle0⟩ := hg
    have he0f : e0 ∈ curve.filter fun e =>
        decide (0 < e.1) && decide (cutoff ≤ e.2) := by
      rw [List.mem_filter]
      refine ⟨he0, ?_⟩
      simp [hpos0, hle0]
    have hmem2 : e0.1 ∈ (curve.filter fun e =>
        decide (0 < e.1) && decide (cutoff ≤ e.2)).map Prod.fst :=
      List.mem_map_of_mem Prod.fst he0f
    have hne2 : ((curve.filter fun e =>
        decide (0 < e.1) && decide (cutoff ≤ e.2)).map Prod.fst) ≠ [] := by
      intro h
      rw [h] at hmem2
      exact absurd hmem2 (List.not_mem_nil _)
    cases hm2 : listMaxQ ((curve.filter fun e =>
        decide (0 < e.1) && decide (cutoff ≤ e.2)).map Prod.fst) with
    | none => exact absurd ((listMaxQ_eq_none_iff _).mp hm2) hne2
    | some m =>
      refine listMaxQ_eq_some_of _ m ?_ ?_
      · -- m is the fst of an entry meeting both tests, hence meets the weaker one
        obtain ⟨e, hef, hem⟩ := List.mem_map.mp (listMaxQ_mem _ m hm2)
        rw [List.mem_filter] at hef
        refine List.mem_map.mpr ⟨e, ?_, hem⟩
        rw [List.mem_filter]
        refine ⟨hef.1, ?_⟩
        have := hef.2
        simp only [Bool.and_eq_true, decide_eq_true_eq] at this
        simp [this.2]
      · -- every fst of an entry meeting the cutoff is bounded by m
        intro x hx
        obtain ⟨e, hef, hem⟩ := List.mem_map.mp hx
        rw [List.mem_filter] at hef
        have hele : cutoff ≤ e.2 := by
          have := hef.2
          simpa using this
        by_cases hp : 0 < e.1
        · refine listMaxQ_is_ub _ m hm2 x ?_
          refine List.mem_map.mpr ⟨e, ?_, hem⟩
          rw [List.mem_filter]
          refine ⟨hef.1, ?_⟩
          simp [hp, hele]
        · -- a nonpositive pixres is below the positive entry e0, hence below m
          have he0m : e0.1 ≤ m := listMaxQ_is_ub _ m hm2 e0.1 hmem2
          have : x ≤ 0 := by
            rw [← hem]
            exact le_of_not_lt hp
          exact le_trans this (le_trans (le_of_lt hpos0) he0m)
  · rw [fscThreshold, if_neg hg, specThreshold]
    have hfil : (curve.filter fun e =>
        decide (0 < e.1) && decide (cutoff ≤ e.2)) = [] := by
      rw [List.filter_eq_nil_iff]
      intro e he
      push_neg at hg
      have := hg e he
      simp only [Bool.and_eq_true, decide_eq_true_eq, not_and]
      intro hp
      exact fun hle => absurd hle (not_le.mpr (this hp))
    rw [hfil]
    simp [listMaxQ]

/-- C7: `get_fsc_thresholds` returns, for each of the cutoffs 0.5 and
0.143, exactly the maximal pixel-resolution value among the entries with
pixel-resolution > 0 (the DC entry excluded) whose correlation is at
least the cutoff, and `none` exactly when no such entry exists
(`specThreshold` is written from the spec sentence; `listMaxQ [] = none`).
In particular the DC entry, whose pixel resolution is 0, never by itself
produces a defined threshold. -/
theorem get_fsc_thresholds_eq_spec (curve : List (ℚ × ℝ)) (apix : ℚ) :
    get_fsc_thresholds curve apix =
      (specThreshold curve (0.5 : ℝ), specThreshold curve (0.143 : ℝ)) := by
  rw [get_fsc_thresholds, fscThreshold_eq_spec, fscThreshold_eq_spec]

/-- C8: the Phase-Randomization Corrector raises its fatal length error
exactly when the supplied curve does not have D/2 rows; with exactly D/2
rows it returns a result. -/
theorem correct_fsc_error_iff (F : Vol → CVol) (D : ℕ)
    (fsc_vals : List (ℚ × ℝ)) (vol1 vol2 : Vol) (rt : ℚ) (m : Option Vol)
    (σ1 σ2 : ℕ → ℕ) (hE : Even D) :
    (∃ e, correct_fsc F D fsc_vals vol1 vol2 rt m σ1 σ2 = Except.error e) ↔
      fsc_vals.length ≠ D / 2 := by
  by_cases h : fsc_vals.length ≠ D / 2
  · simp [correct_fsc, h]
  · simp [correct_fsc, h]

/-- Witness for C8 at D = 4 with a 1-row curve (mismatch, hence the
error) — the bi-implication is exercised in its positive direction. -/
theorem correct_fsc_error_iff_witness :
    (∃ e, correct_fsc zeroF 4 [((0 : ℚ), (1 : ℝ))] zeroVol zeroVol 0 none
        id id = Except.error e) ↔
      ([((0 : ℚ), (1 : ℝ))].length ≠ 4 / 2) :=
  correct_fsc_error_iff zeroF 4 [((0 : ℚ), (1 : ℝ))] zeroVol zeroVol 0 none
    id id (by decide)

/-! Helper lemmas for the shell loop of `correct_fsc`. -/

lemma getD_set_ne (l : List ℝ) (i j : ℕ) (a : ℝ) (h : i ≠ j) :
    (l.set i a).getD j 0 = l.getD j 0 := by
  rw [List.getD_eq_getElem?_getD, List.getD_eq_getElem?_getD,
    List.getElem?_set_ne h]

lemma correctFold_length (w1 w2 : CVol) (D : ℕ) (phaseD : ℤ) (l : List ℕ) :
    ∀ acc : List ℝ,
      (l.foldl (fun (acc : List ℝ) (i : ℕ) =>
        if phaseD < (i : ℤ) then
          acc.set i (correctShellVal w1 w2 D i (acc.getD i 0))
        else acc) acc).length = acc.length := by
  induction l with
  | nil => intro acc; rfl
  | cons i l ih =>
    intro acc
    rw [List.foldl_cons, ih]
    split <;> simp [List.length_set]

lemma correctFold_getElem? (w1 w2 : CVol) (D : ℕ) (phaseD : ℤ) (l : List ℕ)
    (hnd : l.Nodup) :
    ∀ (acc : List ℝ) (j : ℕ), j < acc.length →
      (l.foldl (fun (acc : List ℝ) (i : ℕ) =>
        if phaseD < (i : ℤ) then
          acc.set i (correctShellVal w1 w2 D i (acc.getD i 0))
        else acc) acc)[j]? =
      if j ∈ l ∧ phaseD < (j : ℤ) then
        some (correctShellVal w1 w2 D j (acc.getD j 0))
      else acc[j]? := by
  induction l with
  | nil =>
    intro acc j hj
    simp
  | cons i l ih =>
    intro acc j hj
    rw [List.nodup_cons] at hnd
    rw [List.foldl_cons]
    have hlen : (if phaseD < (i : ℤ) then
        acc.set i (correctShellVal w1 w2 D i (acc.getD i 0))
      else acc).length = acc.length := by
      split <;> simp [List.length_set]
    rw [ih hnd.2 _ j (by rw [hlen]; exact hj)]
    by_cases hji : j = i
    · subst hji
      have hjl : j ∉ l := hnd.1
      simp only [hjl, false_and, if_false]
      by_cases hc : phaseD < (j : ℤ)
      · have hmem : j ∈ j :: l ∧ phaseD < (j : ℤ) :=
          ⟨List.mem_cons_self j l, hc⟩
        rw [if_pos hc, if_pos hmem, List.getElem?_set_self',
          List.getElem?_eq_getElem hj]
        rfl
      · have hmem : ¬(j ∈ j :: l ∧ phaseD < (j : ℤ)) := fun h => hc h.2
        rw [if_neg hc, if_neg hmem]
    · have e1 : (if phaseD < (i : ℤ) then
          acc.set i (correctShellVal w1 w2 D i (acc.getD i 0))
        else acc).getD j 0 = acc.getD j 0 := by
        split
        · exact getD_set_ne acc i j _ (fun h => hji h.symm)
        · rfl
      have e2 : (if phaseD < (i : ℤ) then
          acc.set i (correctShellVal w1 w2 D i (acc.getD i 0))
        else acc)[j]? = acc[j]? := by
        split
        · exact List.getElem?_set_ne (fun h => hji h.symm)
        · rfl
      rw [e1, e2]
      by_cases hjl : j ∈ l
      · have h1 : j ∈ l ∧ phaseD < (j : ℤ) ↔ j ∈ i :: l ∧ phaseD < (j : ℤ) := by
          simp [List.mem_cons, hjl]
        by_cases hc : phaseD < (j : ℤ)
        · rw [if_pos ⟨hjl, hc⟩, if_pos ⟨List.mem_cons_of_mem i hjl, hc⟩]
        · rw [if_neg (fun h => hc h.2), if_neg (fun h => hc h.2)]
      · have h2 : ¬(j ∈ l ∧ phaseD < (j : ℤ)) := fun h => hjl h.1
        have h3 : ¬(j ∈ i :: l ∧ phaseD < (j : ℤ)) := by
          intro h
          rcases List.mem_cons.mp h.1 with h4 | h4
          · exact hji h4
          · exact hjl h4
        rw [if_neg h2, if_neg h3]

lemma correctLoop_length (w1 w2 : CVol) (D : ℕ) (phaseD : ℤ)
    (fsc0 : List ℝ) : (correctLoop w1 w2 D phaseD fsc0).length = fsc0.length :=
  correctFold_length w1 w2 D phaseD _ fsc0

lemma correctLoop_getElem? (w1 w2 : CVol) (D : ℕ) (phaseD : ℤ)
    (fsc0 : List ℝ) (hD : 2 ≤ D) (j : ℕ) (hj : j < fsc0.length) :
    (correctLoop w1 w2 D phaseD fsc0)[j]? =
      if (1 ≤ j ∧ j < D / 2) ∧ phaseD < (j : ℤ) then
        some (correctShellVal w1 w2 D j (fsc0.getD j 0))
      else fsc0[j]? := by
  rw [correctLoop, correctFold_getElem? w1 w2 D phaseD _
    (List.nodup_range' 1 (D / 2 - 1)) fsc0 j hj]
  have hmem : j ∈ List.range' 1 (D / 2 - 1) ↔ 1 ≤ j ∧ j < D / 2 := by
    rw [List.mem_range'_1]
    omega
  by_cases hc : phaseD < (j : ℤ)
  · by_cases hm : 1 ≤ j ∧ j < D / 2
    · rw [if_pos ⟨hmem.mpr hm, hc⟩, if_pos ⟨hm, hc⟩]
    · rw [if_neg (fun h => hm (hmem.mp h.1)), if_neg (fun h => hm h.1)]
  · rw [if_neg (fun h => hc h.2), if_neg (fun h => hc h.2)]

lemma correct_fsc_ok (F : Vol → CVol) (D : ℕ) (fsc_vals : List (ℚ × ℝ))
    (vol1 vol2 : Vol) (rt : ℚ) (m : Option Vol) (σ1 σ2 : ℕ → ℕ)
    (hlen : fsc_vals.length = D / 2) :
    correct_fsc F D fsc_vals vol1 vol2 rt m σ1 σ2 =
      Except.ok
        (mkCurve D
          (correctLoop
            (scramble D (pyInt (rt * (D : ℚ))) σ1 (F (maskOpt vol1 m)))
            (scramble D (pyInt (rt * (D : ℚ))) σ2 (F (maskOpt vol2 m)))
            D (pyInt (rt * (D : ℚ))) (fsc_vals.map Prod.snd)),
          maskOpt vol1 m, maskOpt vol2 m) := by
  rw [correct_fsc]
  simp [hlen]

/-- C5: for every corrector call whose input curve has exactly D/2 rows
the call succeeds; writing `phase_D = int(randomization_threshold * D)`,
every output row with index at most `phase_D` keeps the input value at
that index, and every shell index i in 1 … D/2 - 1 with i > phase_D is
replaced by `correctShellVal` of the input value — by definition the
clipped rescaling `clip((fsc_raw - p) / (1 - p), 0, 1)` with
`p` the correlation of the phase-scrambled volumes on shell i, except
that `p = 1` yields exactly 0 and a NaN `p` (zero-power shell of the
scrambled volumes) leaves the input value unchanged.  The caller buffers
come back multiplied by the mask. -/
theorem correct_fsc_spec (F : Vol → CVol) (D : ℕ) (fsc_vals : List (ℚ × ℝ))
    (vol1 vol2 : Vol) (rt : ℚ) (m : Option Vol) (σ1 σ2 : ℕ → ℕ)
    (hD : 2 ≤ D) (hlen : fsc_vals.length = D / 2) :
    ∃ cc : List (ℚ × ℝ),
      correct_fsc F D fsc_vals vol1 vol2 rt m σ1 σ2 =
        Except.ok (cc, maskOpt vol1 m, maskOpt vol2 m) ∧
      cc.length = D / 2 ∧
      (∀ i : ℕ, i < D / 2 → (i : ℤ) ≤ pyInt (rt * (D : ℚ)) →
        cc[i]? = some ((i : ℚ) / (D : ℚ), (fsc_vals.map Prod.snd).getD i 0)) ∧
      (∀ i : ℕ, 1 ≤ i → i < D / 2 → pyInt (rt * (D : ℚ)) < (i : ℤ) →
        cc[i]? = some ((i : ℚ) / (D : ℚ),
          correctShellVal
            (scramble D (pyInt (rt * (D : ℚ))) σ1 (F (maskOpt vol1 m)))
            (scramble D (pyInt (rt * (D : ℚ))) σ2 (F (maskOpt vol2 m)))
            D i ((fsc_vals.map Prod.snd).getD i 0))) := by
  have hlen2 : (fsc_vals.map Prod.snd).length = D / 2 := by
    rw [List.length_map, hlen]
  have hlooplen : (correctLoop
      (scramble D (pyInt (rt * (D : ℚ))) σ1 (F (maskOpt vol1 m)))
      (scramble D (pyInt (rt * (D : ℚ))) σ2 (F (maskOpt vol2 m)))
      D (pyInt (rt * (D : ℚ))) (fsc_vals.map Prod.snd)).length = D / 2 := by
    rw [correctLoop_length, hlen2]
  refine ⟨_, correct_fsc_ok F D fsc_vals vol1 vol2 rt m σ1 σ2 hlen,
    mkCurve_length D _ hlooplen, ?_, ?_⟩
  · intro i hi hle
    rw [mkCurve_getElem? D _ hlooplen i hi, List.getD_eq_getElem?_getD,
      correctLoop_getElem? _ _ D _ _ hD i (by omega)]
    rw [if_neg (fun h => absurd hle (not_le.mpr h.2)),
      ← List.getD_eq_getElem?_getD]
  · intro i h1 hi hgt
    rw [mkCurve_getElem? D _ hlooplen i hi, List.getD_eq_getElem?_getD,
      correctLoop_getElem? _ _ D _ _ hD i (by omega)]
    rw [if_pos ⟨⟨h1, hi⟩, hgt⟩]
    rfl

/-- Witness for C5 at D = 4 with the 2-row curve ((0,1), (1/4, 1/2)),
zero volumes and transform, threshold 0, identity reindexings. -/
theorem correct_fsc_spec_witness :
    ∃ cc : List (ℚ × ℝ),
      correct_fsc zeroF 4 [((0 : ℚ), (1 : ℝ)), ((1 / 4 : ℚ), (1 / 2 : ℝ))]
          zeroVol zeroVol 0 none id id =
        Except.ok (cc, maskOpt zeroVol none, maskOpt zeroVol none) ∧
      cc.length = 4 / 2 ∧
      (∀ i : ℕ, i < 4 / 2 → (i : ℤ) ≤ pyInt (0 * ((4 : ℕ) : ℚ)) →
        cc[i]? = some ((i : ℚ) / ((4 : ℕ) : ℚ),
          ([((0 : ℚ), (1 : ℝ)), ((1 / 4 : ℚ), (1 / 2 : ℝ))].map
            Prod.snd).getD i 0)) ∧
      (∀ i : ℕ, 1 ≤ i → i < 4 / 2 → pyInt (0 * ((4 : ℕ) : ℚ)) < (i : ℤ) →
        cc[i]? = some ((i : ℚ) / ((4 : ℕ) : ℚ),
          correctShellVal
            (scramble 4 (pyInt (0 * ((4 : ℕ) : ℚ))) id (zeroF (maskOpt zeroVol none)))
            (scramble 4 (pyInt (0 * ((4 : ℕ) : ℚ))) id (zeroF (maskOpt zeroVol none)))
            4 i (([((0 : ℚ), (1 : ℝ)), ((1 / 4 : ℚ), (1 / 2 : ℝ))].map
              Prod.snd).getD i 0))) :=
  correct_fsc_spec zeroF 4 [((0 : ℚ), (1 : ℝ)), ((1 / 4 : ℚ), (1 / 2 : ℝ))]
    zeroVol zeroVol 0 none id id (by decide) rfl

lemma csRun_r3_eq (F : Vol → CVol) (P : Providers) (D : ℕ)
    (full_vol h1v h2v : Vol) (sph : Option Vol) (lm : ℕ × ℕ)
    (tight : TightMaskArg) (Apix : ℚ) :
    (csRun F P D full_vol h1v h2v sph lm tight Apix).r3 =
      calculate_fsc F D (csRun F P D full_vol h1v h2v sph lm tight Apix).r2.v1
        (csRun F P D full_vol h1v h2v sph lm tight Apix).r2.v2
        (some (csTightMask P full_vol tight Apix)) := rfl

/-- C6: for every orchestrator run (stated for runs without a plot
destination, see the remark at the end): if the Tight curve has a
defined 0.143 threshold t, the run returns the table whose Corrected
curve is exactly the result of the Phase-Randomization Corrector applied
to the Tight curve with randomization threshold 0.75 t and the Tight
mask (on the threaded half-map buffers), with the Corrected threshold
recomputed from it; otherwise the returned Corrected curve IS the Tight
curve and the Corrected threshold equals the Tight one (both
undefined).  Remark: when a plot destination is supplied and any of the
five 0.143 thresholds is undefined — always the case in the
Tight-undefined branch — the source instead raises a TypeError in the
plot-labelling step (`1 / fsc_val` with `fsc_val = None`), which is what
forces the no-plot restriction here (see the counterexample theorem). -/
theorem cryosparc_corrected_spec (F : Vol → CVol) (P : Providers) (D : ℕ)
    (full_vol h1v h2v : Vol) (sph : Option Vol) (lm : ℕ × ℕ)
    (tight : TightMaskArg) (Apix : ℚ) (σ1 σ2 : ℕ → ℕ) (hD : 2 ≤ D) :
    (∀ t : ℚ,
      fscThreshold (csRun F P D full_vol h1v h2v sph lm tight Apix).r3.curve
          (0.143 : ℝ) = some t →
      ∃ cc : List (ℚ × ℝ),
        correct_fsc F D
            (csRun F P D full_vol h1v h2v sph lm tight Apix).r3.curve
            (csRun F P D full_vol h1v h2v sph lm tight Apix).r3.v1
            (csRun F P D full_vol h1v h2v sph lm tight Apix).r3.v2
            ((3 : ℚ) / 4 * t) (some (csTightMask P full_vol tight Apix))
            σ1 σ2 =
          Except.ok (cc,
            maskOpt (csRun F P D full_vol h1v h2v sph lm tight Apix).r3.v1
              (some (csTightMask P full_vol tight Apix)),
            maskOpt (csRun F P D full_vol h1v h2v sph lm tight Apix).r3.v2
              (some (csTightMask P full_vol tight Apix))) ∧
        calculate_cryosparc_fscs F P D full_vol h1v h2v sph lm tight Apix
            none σ1 σ2 =
          Except.ok
            { noMask := (csRun F P D full_vol h1v h2v sph lm tight Apix).r0.curve,
              spherical := (csRun F P D full_vol h1v h2v sph lm tight Apix).r1.curve,
              loose := (csRun F P D full_vol h1v h2v sph lm tight Apix).r2.curve,
              tight := (csRun F P D full_vol h1v h2v sph lm tight Apix).r3.curve,
              corrected := cc,
              tNoMask := fscThreshold
                (csRun F P D full_vol h1v h2v sph lm tight Apix).r0.curve (0.143 : ℝ),
              tSpherical := fscThreshold
                (csRun F P D full_vol h1v h2v sph lm tight Apix).r1.curve (0.143 : ℝ),
              tLoose := fscThreshold
                (csRun F P D full_vol h1v h2v sph lm tight Apix).r2.curve (0.143 : ℝ),
              tTight := some t,
              tCorrected := fscThreshold cc (0.143 : ℝ) }) ∧
    (fscThreshold (csRun F P D full_vol h1v h2v sph lm tight Apix).r3.curve
        (0.143 : ℝ) = none →
      calculate_cryosparc_fscs F P D full_vol h1v h2v sph lm tight Apix
          none σ1 σ2 =
        Except.ok
          { noMask := (csRun F P D full_vol h1v h2v sph lm tight Apix).r0.curve,
            spherical := (csRun F P D full_vol h1v h2v sph lm tight Apix).r1.curve,
            loose := (csRun F P D full_vol h1v h2v sph lm tight Apix).r2.curve,
            tight := (csRun F P D full_vol h1v h2v sph lm tight Apix).r3.curve,
            corrected := (csRun F P D full_vol h1v h2v sph lm tight Apix).r3.curve,
            tNoMask := fscThreshold
              (csRun F P D full_vol h1v h2v sph lm tight Apix).r0.curve (0.143 : ℝ),
            tSpherical := fscThreshold
              (csRun F P D full_vol h1v h2v sph lm tight Apix).r1.curve (0.143 : ℝ),
            tLoose := fscThreshold
              (csRun F P D full_vol h1v h2v sph lm tight Apix).r2.curve (0.143 : ℝ),
            tTight := none, tCorrected := none }) := by
  constructor
  · intro t ht
    have hlen : (csRun F P D full_vol h1v h2v sph lm tight Apix).r3.curve.length
        = D / 2 := by
      rw [csRun_r3_eq]
      exact calculate_fsc_curve_length F D _ _ _ hD
    have hok := correct_fsc_ok F D
      (csRun F P D full_vol h1v h2v sph lm tight Apix).r3.curve
      (csRun F P D full_vol h1v h2v sph lm tight Apix).r3.v1
      (csRun F P D full_vol h1v h2v sph lm tight Apix).r3.v2
      ((3 : ℚ) / 4 * t) (some (csTightMask P full_vol tight Apix)) σ1 σ2 hlen
    refine ⟨_, hok, ?_⟩
    simp only [calculate_cryosparc_fscs, get_fsc_thresholds]
    rw [ht]
    dsimp only
    rw [hok]
    simp
  · intro hnone
    simp only [calculate_cryosparc_fscs, get_fsc_thresholds]
    rw [hnone]
    simp

/-- Witness for C6 at D = 2 with zero volumes, all-ones providers, an
explicit all-ones tight mask and no plot destination. -/
theorem cryosparc_corrected_spec_witness :
    (∀ t : ℚ,
      fscThreshold (csRun zeroF oneProviders 2 zeroVol zeroVol zeroVol none
          (25, 15) (TightMaskArg.arr oneVol) 1).r3.curve (0.143 : ℝ) = some t →
      ∃ cc : List (ℚ × ℝ),
        correct_fsc zeroF 2
            (csRun zeroF oneProviders 2 zeroVol zeroVol zeroVol none
              (25, 15) (TightMaskArg.arr oneVol) 1).r3.curve
            (csRun zeroF oneProviders 2 zeroVol zeroVol zeroVol none
              (25, 15) (TightMaskArg.arr oneVol) 1).r3.v1
            (csRun zeroF oneProviders 2 zeroVol zeroVol zeroVol none
              (25, 15) (TightMaskArg.arr oneVol) 1).r3.v2
            ((3 : ℚ) / 4 * t)
            (some (csTightMask oneProviders zeroVol (TightMaskArg.arr oneVol) 1))
            id id =
          Except.ok (cc,
            maskOpt (csRun zeroF oneProviders 2 zeroVol zeroVol zeroVol none
                (25, 15) (TightMaskArg.arr oneVol) 1).r3.v1
              (some (csTightMask oneProviders zeroVol (TightMaskArg.arr oneVol) 1)),
            maskOpt (csRun zeroF oneProviders 2 zeroVol zeroVol zeroVol none
                (25, 15) (TightMaskArg.arr oneVol) 1).r3.v2
              (some (csTightMask oneProviders zeroVol (TightMaskArg.arr oneVol) 1))) ∧
        calculate_cryosparc_fscs zeroF oneProviders 2 zeroVol zeroVol zeroVol
            none (25, 15) (TightMaskArg.arr oneVol) 1 none id id =
          Except.ok
            { noMask := (csRun zeroF oneProviders 2 zeroVol zeroVol zeroVol none
                (25, 15) (TightMaskArg.arr oneVol) 1).r0.curve,
              spherical := (csRun zeroF oneProviders 2 zeroVol zeroVol zeroVol none
                (25, 15) (TightMaskArg.arr oneVol) 1).r1.curve,
              loose := (csRun zeroF oneProviders 2 zeroVol zeroVol zeroVol none
                (25, 15) (TightMaskArg.arr oneVol) 1).r2.curve,
              tight := (csRun zeroF oneProviders 2 zeroVol zeroVol zeroVol none
                (25, 15) (TightMaskArg.arr oneVol) 1).r3.curve,
              corrected := cc,
              tNoMask := fscThreshold (csRun zeroF oneProviders 2 zeroVol zeroVol
                zeroVol none (25, 15) (TightMaskArg.arr oneVol) 1).r0.curve (0.143 : ℝ),
              tSpherical := fscThreshold (csRun zeroF oneProviders 2 zeroVol zeroVol
                zeroVol none (25, 15) (TightMaskArg.arr oneVol) 1).r1.curve (0.143 : ℝ),
              tLoose := fscThreshold (csRun zeroF oneProviders 2 zeroVol zeroVol
                zeroVol none (25, 15) (TightMaskArg.arr oneVol) 1).r2.curve (0.143 : ℝ),
              tTight := some t,
              tCorrected := fscThreshold cc (0.143 : ℝ) }) ∧
    (fscThreshold (csRun zeroF oneProviders 2 zeroVol zeroVol zeroVol none
        (25, 15) (TightMaskArg.arr oneVol) 1).r3.curve (0.143 : ℝ) = none →
      calculate_cryosparc_fscs zeroF oneProviders 2 zeroVol zeroVol zeroVol
          none (25, 15) (TightMaskArg.arr oneVol) 1 none id id =
        Except.ok
          { noMask := (csRun zeroF oneProviders 2 zeroVol zeroVol zeroVol none
              (25, 15) (TightMaskArg.arr oneVol) 1).r0.curve,
            spherical := (csRun zeroF oneProviders 2 zeroVol zeroVol zeroVol none
              (25, 15) (TightMaskArg.arr oneVol) 1).r1.curve,
            loose := (csRun zeroF oneProviders 2 zeroVol zeroVol zeroVol none
              (25, 15) (TightMaskArg.arr oneVol) 1).r2.curve,
            tight := (csRun zeroF oneProviders 2 zeroVol zeroVol zeroVol none
              (25, 15) (TightMaskArg.arr oneVol) 1).r3.curve,
            corrected := (csRun zeroF oneProviders 2 zeroVol zeroVol zeroVol none
              (25, 15) (TightMaskArg.arr oneVol) 1).r3.curve,
            tNoMask := fscThreshold (csRun zeroF oneProviders 2 zeroVol zeroVol
              zeroVol none (25, 15) (TightMaskArg.arr oneVol) 1).r0.curve (0.143 : ℝ),
            tSpherical := fscThreshold (csRun zeroF oneProviders 2 zeroVol zeroVol
              zeroVol none (25, 15) (TightMaskArg.arr oneVol) 1).r1.curve (0.143 : ℝ),
            tLoose := fscThreshold (csRun zeroF oneProviders 2 zeroVol zeroVol
              zeroVol none (25, 15) (TightMaskArg.arr oneVol) 1).r2.curve (0.143 : ℝ),
            tTight := none, tCorrected := none }) :=
  cryosparc_corrected_spec zeroF oneProviders 2 zeroVol zeroVol zeroVol none
    (25, 15) (TightMaskArg.arr oneVol) 1 id id (by decide)

/-- Counterexample for C6 as universally stated: an orchestrator run WITH
a plot destination whose thresholds are undefined (D = 2: the curves are
the single DC row, so no 0.143 threshold is defined) does not return the
table with Corrected = Tight — it raises the TypeError of the
plot-labelling step (`1 / fsc_val` with `fsc_val = None`) instead. -/
theorem cryosparc_plot_label_crash :
    calculate_cryosparc_fscs zeroF oneProviders 2 zeroVol zeroVol zeroVol
        none (25, 15) (TightMaskArg.arr oneVol) 1 (some ()) id id =
      Except.error "TypeError: unsupported operand types for / with None" := by
  have hcurve : (csRun zeroF oneProviders 2 zeroVol zeroVol zeroVol none (25, 15)
      (TightMaskArg.arr oneVol) 1).r3.curve = [((0 : ℚ), (1 : ℝ))] := by
    rw [csRun_r3_eq]
    simp [calculate_fsc, mkCurve, pixres, fscVals]
    norm_num [List.range_succ]
  have ht : fscThreshold [((0 : ℚ), (1 : ℝ))] (0.143 : ℝ) = none := by
    rw [fscThreshold, if_neg]
    rintro ⟨e, he, hp, -⟩
    simp only [List.mem_singleton] at he
    subst he
    exact lt_irrefl 0 hp
  simp only [calculate_cryosparc_fscs, get_fsc_thresholds]
  rw [hcurve, ht]
  dsimp only
  simp [plotLabelsOk]

/-- C1 (code-bug evidence): `calculate_fsc` does NOT leave its input
volumes unchanged when given a mask — `vol1 *= initial_mask` overwrites
the caller buffer — and consequently the orchestrator hands the Loose
FSC computation half-maps already scaled by the Spherical mask: with
all-ones half-maps and a spherical mask of constant 1/2, the buffer fed
to the Loose call holds 1/2, not the original 1. -/
theorem calculate_fsc_mutates_half_maps :
    (calculate_fsc zeroF 2 oneVol oneVol (some zeroVol)).v1 0 0 0 = 0 ∧
    oneVol 0 0 0 = 1 ∧
    ((0 : ℝ) ≠ 1) ∧
    (csRun zeroF oneProviders 2 oneVol oneVol oneVol (some halfVol) (25, 15)
      (TightMaskArg.arr oneVol) 1).r1.v1 0 0 0 = 1 / 2 ∧
    ((1 / 2 : ℝ) ≠ 1) := by
  refine ⟨?_, rfl, by norm_num, ?_, by norm_num⟩
  · simp [calculate_fsc, maskOpt, maskVol, zeroVol, oneVol]
  · simp [csRun, calculate_fsc, maskOpt, maskVol, zeroVol, oneVol, halfVol]

/-- The two-volume invocation of C2: two volume files, no optional
arguments. -/
noncomputable def argsTwoVol : Args :=
  { volumes := [⟨zeroVol, none⟩, ⟨zeroVol, none⟩], mask := none,
    corrected := none, Apix := none, plot := none, outtxt := none }

/-- C2 (code-bug evidence): a two-volume `main` invocation always raises.
The source calls `calculate_fsc` with FOUR positional arguments
(`vol1, vol2, mask, args.corrected`) plus the keyword
`out_file=args.outtxt`, but `calculate_fsc` has only the parameters
`(vol1, vol2, initial_mask, out_file)`, so `args.corrected` is bound to
`out_file` positionally and Python raises
`TypeError: got multiple values for argument` at the call site — before
any FSC is computed (the event list is empty). -/
theorem main_two_volume_call_raises :
    main zeroF oneProviders 2 argsTwoVol id id =
      ([], Except.error
        "TypeError: calculate_fsc got multiple values for argument out_file") ∧
    calculate_fsc_call_ok = false := by
  constructor
  · rfl
  · rfl

/-- Three volumes carrying conflicting pixel sizes (1.0 and 2.0),
together with an explicit randomization threshold. -/
noncomputable def argsThreeVolApixConflict : Args :=
  { volumes := [⟨zeroVol, some 1⟩, ⟨zeroVol, some 2⟩, ⟨zeroVol, none⟩],
    mask := none, corrected := some 10, Apix := none, plot := none,
    outtxt := none }

/-- Counterexample for C9 as stated: an invocation that supplies both a
`--corrected` threshold and exactly three volume files, but whose
volumes carry different embedded pixel sizes with no `--Apix` override.
The fatal error raised is the metadata-ambiguity one of lines 325-335,
not the input-conflict one, because the pixel-size resolution runs
before the three-volume branch. -/
theorem main_three_vol_conflict_cex :
    main zeroF oneProviders 2 argsThreeVolApixConflict id id =
      ([], Except.error
        "ValueError: these volumes have different A per px values") ∧
    ((Except.error
        "ValueError: these volumes have different A per px values" :
          Except String MainOut) ≠
      Except.error
        "ValueError: cannot provide your own phase randomization threshold") := by
  constructor
  · rfl
  · intro h
    rw [Except.error.injEq] at h
    exact absurd h (by decide)

/-- C9 (amended): for every `main` invocation supplying a `--corrected`
threshold and exactly three volume files, PROVIDED the pixel-size
resolution does not itself fail (no conflicting embedded pixel sizes
without an override), the input-conflict error is raised and the event
list is empty: no mask or FSC computation has run. -/
theorem main_corrected_three_volumes_conflict (F : Vol → CVol)
    (P : Providers) (D : ℕ) (args : Args) (σ1 σ2 : ℕ → ℕ) (a : ℚ)
    (h3 : args.volumes.length = 3) (hc : args.corrected ≠ none)
    (ha : resolveApix args.Apix args.volumes = Except.ok a) :
    main F P D args σ1 σ2 =
      ([], Except.error
        "ValueError: cannot provide your own phase randomization threshold") := by
  obtain ⟨c, hcc⟩ : ∃ c, args.corrected = some c := by
    cases h : args.corrected with
    | none => exact absurd h hc
    | some c => exact ⟨c, rfl⟩
  simp only [main, h3, ha, hcc]
  norm_num

/-- Three volumes with no pixel-size metadata and an explicit
randomization threshold. -/
noncomputable def argsThreeVolCorrected : Args :=
  { volumes := [⟨zeroVol, none⟩, ⟨zeroVol, none⟩, ⟨zeroVol, none⟩],
    mask := none, corrected := some 10, Apix := none, plot := none,
    outtxt := none }

/-- Witness for the amended C9 at a concrete conflict-free invocation. -/
theorem main_corrected_three_volumes_conflict_witness :
    main zeroF oneProviders 2 argsThreeVolCorrected id id =
      ([], Except.error
        "ValueError: cannot provide your own phase randomization threshold") :=
  main_corrected_three_volumes_conflict zeroF oneProviders 2
    argsThreeVolCorrected id id 1 rfl (by simp [argsThreeVolCorrected]) rfl

/-- C10: when `--Apix` is absent or given as 0 (Python float truthiness
treats 0.0 as absent) and no loaded volume carries pixel-size metadata,
the pixel size `main` settles on — and passes to threshold reporting and
mask construction — is exactly 1.0. -/
theorem resolveApix_defaults_to_one (apixArg : Option ℚ) (vols : List VolFile)
    (hA : apixArg = none ∨ apixArg = some 0)
    (hv : ∀ v ∈ vols, v.apix = none) :
    resolveApix apixArg vols = Except.ok 1 := by
  have hfm : vols.filterMap VolFile.apix = [] :=
    List.filterMap_eq_nil_iff.mpr hv
  rcases hA with rfl | rfl <;> simp [resolveApix, hfm]

/-- Witness for C10: one volume without metadata, `--Apix` absent. -/
theorem resolveApix_defaults_to_one_witness :
    resolveApix none [⟨zeroVol, none⟩] = Except.ok 1 :=
  resolveApix_defaults_to_one none [⟨zeroVol, none⟩] (Or.inl rfl) (by simp)
